import Mathlib

/-!
Verification development for the api-form library.

The logical core is the reducer-driven form state machine in
src/hooks (generateDefaultFormData, reset, changeField, checkData,
parseNumbers, submit, reducer, useFormControl).  JavaScript objects used
as string-keyed records are embedded as insertion-ordered association
lists; object update keeps the position of an existing key, matching the
semantics of obj[k] = v.  Side effects of submit (invocations of the
onSubmit callback) are returned explicitly as the list of data values the
callback was invoked with, in order.
-/

namespace ApiForm

/-- Model of a JavaScript number as it arises in this library: numbers are
stored in form data as strings and produced by the Number() conversion.
Conversions that exercise nothing this library needs (fractional or
exponent literals) are conservatively collapsed into nan. -/
inductive JSNumber where
  | val (i : Int)
  | nan
deriving DecidableEq, Repr

/-- Modelled from the spec: the file src/types/form.ts declaring
InputDataType is not in the source tree.  Section 3 of the spec gives Form
Data values as string, number or boolean, and section 4.3 treats null as a
possible current value of a field, so the value domain is those three
types together with the JavaScript null. -/
inductive Value where
  | str (s : String)
  | num (n : JSNumber)
  | bool (b : Bool)
  | null
deriving DecidableEq, Repr

/-- Modelled from the spec: the enum InputType of src/types/form.ts is not
in the source tree.  Section 3 gives it as an open enumeration containing
STRING, NUMBER and BOOLEAN; the renderer prop types of src/types/index.ts
also name select and radio inputs, included here as further members.  The
reducer code branches only on NUMBER and BOOLEAN. -/
inductive InputType where
  | STRING
  | NUMBER
  | BOOLEAN
  | SELECT
  | RADIO
deriving DecidableEq, Repr

/-- Modelled from the spec: one Field Descriptor of a Form Layout
(section 3): id, inputType, required flag, optional default value. -/
structure FieldDescriptor where
  id : String
  inputType : InputType
  required : Bool
  defaultValue : Option Value
deriving DecidableEq, Repr

abbrev FormLayout := List FieldDescriptor

abbrev FormData := List (String × Value)

abbrev FormErrors := List (String × String)

/-- Reading obj[k] from a JavaScript object: the value stored under the
key, none when the key is absent (JavaScript undefined). -/
def lookupKey {α : Type} : List (String × α) → String → Option α
  | [], _ => none
  | (k₂, v) :: rest, k => if k₂ = k then some v else lookupKey rest k

/-- Writing obj[k] = v on a JavaScript object: an existing key keeps its
position and gets the new value, a fresh key is appended. -/
def setKey {α : Type} : List (String × α) → String → α → List (String × α)
  | [], k, v => [(k, v)]
  | (k₂, w) :: rest, k, v =>
    if k₂ = k then (k₂, v) :: rest else (k₂, w) :: setKey rest k v

/-- The single unit of state owned by one hook instance (FormControlState
in the source): current form data plus the error mapping. -/
structure FormControlState where
  formData : FormData
  formErrors : FormErrors
deriving DecidableEq, Repr

/-- JavaScript loose comparison x == null, true exactly for null and
undefined (an absent key). -/
def nullish : Option Value → Bool
  | none => true
  | some Value.null => true
  | some _ => false

/-- The respective empty value of an input type, from the default-value
branch of generateDefaultFormData: false for BOOLEAN, empty string
otherwise. -/
def emptyValue (t : InputType) : Value :=
  if t = InputType.BOOLEAN then Value.bool false else Value.str ""

/-- Body of the loop of generateDefaultFormData for one field: skip the
field when formData[id] != null, otherwise write the declared default, or
the empty value for the input type when no (non-null) default is
declared. -/
def genStep (formData : FormData) (f : FieldDescriptor) : FormData :=
  if nullish (lookupKey formData f.id) = false then formData
  else
    match f.defaultValue with
    | none => setKey formData f.id (emptyValue f.inputType)
    | some v =>
      if v = Value.null then setKey formData f.id (emptyValue f.inputType)
      else setKey formData f.id v

/-- JavaScript truthiness of a form value: empty string, 0, NaN, false and
null are falsy. -/
def truthy : Value → Bool
  | Value.str s => decide (s ≠ "")
  | Value.num (JSNumber.val i) => decide (i ≠ 0)
  | Value.num JSNumber.nan => false
  | Value.bool b => b
  | Value.null => false

/-- Truthiness of reading a key: an absent key (undefined) is falsy. -/
def truthyOpt : Option Value → Bool
  | none => false
  | some v => truthy v

/-- The final id-key step of generateDefaultFormData: when an id key is
given, the supplied data is non-null and the entry under the id key is
truthy, rewrite that entry with its current value.  In the source the
returned object aliases the supplied one, so this read of
defaultData[idKey] sees the already default-filled object fd. -/
def idKeyFixup (defaultData : Option FormData) (idKey : Option String) (fd : FormData) :
    FormData :=
  match idKey, defaultData with
  | some k, some _ =>
    if decide (k ≠ "") && truthyOpt (lookupKey fd k) then
      match lookupKey fd k with
      | some v => setKey fd k v
      | none => fd
    else fd
  | _, _ => fd

/-- generateDefaultFormData from the source: start from the supplied data
object (or a fresh empty object when it is null or undefined), default-fill
every layout field whose current value is nullish, then apply the id-key
step. -/
def generateDefaultFormData (formLayout : FormLayout) (defaultData : Option FormData)
    (idKey : Option String) : FormData :=
  idKeyFixup defaultData idKey (formLayout.foldl genStep (defaultData.getD []))

/-- reset from the source: fresh defaults with no pre-existing data, empty
errors. -/
def reset (state : FormControlState) (formLayout : FormLayout) : FormControlState :=
  { state with formData := generateDefaultFormData formLayout none none, formErrors := [] }

/-- changeField from the source: shallow-merge one key into the form
data. -/
def changeField (state : FormControlState) (key : String) (value : Value) :
    FormControlState :=
  { state with formData := setKey state.formData key value }

/-- The condition of checkData for one field, exactly as parenthesised in
the source: (required && data[id] === "") || data[id] === null.  Both
comparisons are strict, so an absent key (undefined) matches neither. -/
def fieldTrigger (data : FormData) (f : FieldDescriptor) : Bool :=
  (f.required && decide (lookupKey data f.id = some (Value.str ""))) ||
    decide (lookupKey data f.id = some Value.null)

/-- checkData from the source: walk the layout and record the error keyed
by field id whenever the field condition fires. -/
def checkData (data : FormData) (formLayout : FormLayout) : FormErrors :=
  formLayout.foldl
    (fun errors f =>
      if fieldTrigger data f then setKey errors f.id ("Field is required") else errors)
    []

/-- Digit run to a natural number. -/
def digitsToNat (cs : List Char) : Nat :=
  cs.foldl (fun a c => a * 10 + (c.toNat - 48)) 0

/-- Parse a non-empty all-digit run, none otherwise. -/
def parseNatDigits (cs : List Char) : Option Nat :=
  if cs ≠ [] ∧ cs.all Char.isDigit then some (digitsToNat cs) else none

/-- Strip leading and trailing whitespace. -/
def trimChars (cs : List Char) : List Char :=
  ((cs.dropWhile Char.isWhitespace).reverse.dropWhile Char.isWhitespace).reverse

/-- Model of the JavaScript Number() conversion on a string: a string that
is empty after trimming converts to 0, an optionally signed decimal
integer converts to its value, and anything else is conservatively NaN
(fractional, exponent and radix-prefixed literals are not needed by this
library). -/
def strToNumber (s : String) : JSNumber :=
  match trimChars s.data with
  | [] => JSNumber.val 0
  | c :: rest =>
    if c = Char.ofNat 45 then
      match parseNatDigits rest with
      | some n => JSNumber.val (-(n : Int))
      | none => JSNumber.nan
    else if c = Char.ofNat 43 then
      match parseNatDigits rest with
      | some n => JSNumber.val (n : Int)
      | none => JSNumber.nan
    else
      match parseNatDigits (c :: rest) with
      | some n => JSNumber.val (n : Int)
      | none => JSNumber.nan

/-- Model of the JavaScript Number() conversion applied to reading a form
data key: undefined gives NaN, null gives 0, booleans give 0 or 1, numbers
pass through, strings are parsed. -/
def jsNumberOf : Option Value → JSNumber
  | none => JSNumber.nan
  | some (Value.str s) => strToNumber s
  | some (Value.num n) => n
  | some (Value.bool b) => JSNumber.val (if b then 1 else 0)
  | some Value.null => JSNumber.val 0

/-- parseNumbers from the source: copy the data, then overwrite every
NUMBER-typed layout field with Number() of its value read from the
original data. -/
def parseNumbers (data : FormData) (formLayout : FormLayout) : FormData :=
  formLayout.foldl
    (fun parsedData f =>
      if f.inputType = InputType.NUMBER then
        setKey parsedData f.id (Value.num (jsNumberOf (lookupKey data f.id)))
      else parsedData)
    data

/-- submit from the source: validate, invoke the callback with the
number-parsed data when the error object has no keys, and return the state
with the new error mapping.  The second component lists the callback
invocations, in order. -/
def submit (state : FormControlState) (formLayout : FormLayout) :
    FormControlState × List FormData :=
  let errors := checkData state.formData formLayout
  let calls :=
    if errors.length = 0 then [parseNumbers state.formData formLayout] else []
  ({ state with formErrors := errors }, calls)

/-- The tagged action union of the reducer. -/
inductive FormDataReducerAction where
  | reset (formLayout : FormLayout)
  | submit (formLayout : FormLayout)
  | changeField (key : String) (value : Value)

/-- The reducer from the source; the default branch throwing on an unknown
tag is unreachable over the closed action union. -/
def reducer (state : FormControlState) :
    FormDataReducerAction → FormControlState × List FormData
  | FormDataReducerAction.reset l => (reset state l, [])
  | FormDataReducerAction.submit l => submit state l
  | FormDataReducerAction.changeField k v => (changeField state k v, [])

/-- The initial state built by useFormControl: default-filled data, empty
errors. -/
def initState (formLayout : FormLayout) (defaultData : Option FormData)
    (idKey : Option String) : FormControlState :=
  { formData := generateDefaultFormData formLayout defaultData idKey, formErrors := [] }

/-- The three operations the hook facade exposes; each closes over the
hook's own layout. -/
inductive HookAction where
  | reset
  | submit
  | changeField (key : String) (value : Value)

/-- Dispatch of one hook operation, exactly as the closures of
useFormControl build the reducer actions from the hook's layout. -/
def hookDispatch (formLayout : FormLayout) (state : FormControlState) :
    HookAction → FormControlState × List FormData
  | HookAction.reset => reducer state (FormDataReducerAction.reset formLayout)
  | HookAction.submit => reducer state (FormDataReducerAction.submit formLayout)
  | HookAction.changeField k v => reducer state (FormDataReducerAction.changeField k v)

/-- Every field id of the layout has an entry in the data. -/
def coversB (formLayout : FormLayout) (fd : FormData) : Bool :=
  formLayout.all (fun f => (lookupKey fd f.id).isSome)

/-- The value the default-fill loop writes for a field it fills: the
declared default when one is declared and non-null, the empty value of the
input type otherwise. -/
def defaultFor (f : FieldDescriptor) : Value :=
  match f.defaultValue with
  | none => emptyValue f.inputType
  | some v => if v = Value.null then emptyValue f.inputType else v

theorem lookupKey_setKey {α : Type} (m : List (String × α)) (k k₂ : String) (v : α) :
    lookupKey (setKey m k v) k₂ = if k = k₂ then some v else lookupKey m k₂ := by
  induction m with
  | nil => simp [setKey, lookupKey]
  | cons p rest ih =>
    obtain ⟨k₃, w⟩ := p
    by_cases h₃ : k₃ = k
    · subst h₃
      by_cases h₂ : k₃ = k₂ <;> simp [setKey, lookupKey, h₂]
    · by_cases h₂ : k₃ = k₂
      · subst h₂
        have hne : ¬ k = k₃ := fun hh => h₃ hh.symm
        simp [setKey, lookupKey, h₃, hne]
      · simp [setKey, lookupKey, h₃, h₂, ih]

theorem setKey_setKey_self {α : Type} (m : List (String × α)) (k : String) (v : α) :
    setKey (setKey m k v) k v = setKey m k v := by
  induction m with
  | nil => simp [setKey]
  | cons p rest ih =>
    obtain ⟨k₃, w⟩ := p
    by_cases h₃ : k₃ = k <;> simp [setKey, h₃, ih]

theorem setKey_eq_self_of_lookup {α : Type} (m : List (String × α)) (k : String) (v : α)
    (h : lookupKey m k = some v) : setKey m k v = m := by
  induction m with
  | nil => simp [lookupKey] at h
  | cons p rest ih =>
    obtain ⟨k₃, w⟩ := p
    by_cases h₃ : k₃ = k
    · subst h₃
      simp [lookupKey] at h
      simp [setKey, h]
    · simp [lookupKey, h₃] at h
      simp [setKey, h₃, ih h]

theorem ne_nil_of_lookupKey {α : Type} (m : List (String × α)) (k : String) (v : α)
    (h : lookupKey m k = some v) : m ≠ [] := by
  intro hm
  subst hm
  simp [lookupKey] at h

theorem lookupKey_mem {α : Type} (m : List (String × α)) (k : String) (v : α)
    (h : lookupKey m k = some v) : (k, v) ∈ m := by
  induction m with
  | nil => simp [lookupKey] at h
  | cons p rest ih =>
    obtain ⟨k₃, w⟩ := p
    by_cases h₃ : k₃ = k
    · subst h₃
      simp [lookupKey] at h
      subst h
      exact List.mem_cons_self _ _
    · simp [lookupKey, h₃] at h
      exact List.mem_cons_of_mem _ (ih h)

theorem isSome_of_not_nullish (o : Option Value) (h : nullish o = false) :
    o.isSome = true := by
  cases o with
  | none => simp [nullish] at h
  | some v => rfl

theorem nullish_some_of_ne_null (v : Value) (h : v ≠ Value.null) :
    nullish (some v) = false := by
  cases v <;> simp_all [nullish]

theorem defaultFor_ne_null (f : FieldDescriptor) : defaultFor f ≠ Value.null := by
  obtain ⟨i, ty, rq, dv⟩ := f
  cases dv with
  | none =>
    simp only [defaultFor, emptyValue]
    split <;> simp
  | some v =>
    simp only [defaultFor]
    by_cases hv : v = Value.null
    · simp only [if_pos hv, emptyValue]
      split <;> simp
    · simp [hv]

theorem defaultFor_eq_getD (f : FieldDescriptor) (h : f.defaultValue ≠ some Value.null) :
    defaultFor f = f.defaultValue.getD (emptyValue f.inputType) := by
  obtain ⟨i, ty, rq, dv⟩ := f
  cases dv with
  | none => rfl
  | some v =>
    have hv : v ≠ Value.null := by
      intro hh
      exact h (by simp_all)
    simp [defaultFor, hv, Option.getD]

theorem genStep_eq_of_not_nullish (fd : FormData) (f : FieldDescriptor)
    (h : nullish (lookupKey fd f.id) = false) : genStep fd f = fd := by
  simp [genStep, h]

theorem genStep_eq_of_nullish (fd : FormData) (f : FieldDescriptor)
    (h : nullish (lookupKey fd f.id) = true) :
    genStep fd f = setKey fd f.id (defaultFor f) := by
  obtain ⟨i, ty, rq, dv⟩ := f
  simp only at h
  cases dv with
  | none => simp [genStep, defaultFor, h]
  | some v =>
    by_cases hv : v = Value.null <;> simp [genStep, defaultFor, h, hv]

theorem genStep_lookup_of_ne (fd : FormData) (f : FieldDescriptor) (k : String)
    (h : f.id ≠ k) : lookupKey (genStep fd f) k = lookupKey fd k := by
  obtain ⟨i, ty, rq, dv⟩ := f
  simp only at h
  by_cases hn : nullish (lookupKey fd i) = false
  · simp [genStep, hn]
  · cases dv with
    | none => simp [genStep, hn, lookupKey_setKey, h]
    | some v =>
      by_cases hv : v = Value.null <;> simp [genStep, hn, hv, lookupKey_setKey, h]

theorem genFold_lookup_of_not_nullish (layout : FormLayout) (fd : FormData) (k : String)
    (h : nullish (lookupKey fd k) = false) :
    lookupKey (layout.foldl genStep fd) k = lookupKey fd k := by
  induction layout generalizing fd with
  | nil => simp
  | cons f rest ih =>
    simp only [List.foldl_cons]
    by_cases hid : f.id = k
    · rw [genStep_eq_of_not_nullish fd f (by rw [hid]; exact h)]
      exact ih fd h
    · have hpres := genStep_lookup_of_ne fd f k hid
      rw [ih (genStep fd f) (by rw [hpres]; exact h), hpres]

theorem genFold_lookup_of_nullish (layout : FormLayout) (fd : FormData) (k : String)
    (h : nullish (lookupKey fd k) = true) :
    lookupKey (layout.foldl genStep fd) k =
      match layout.find? (fun f => decide (f.id = k)) with
      | some f => some (defaultFor f)
      | none => lookupKey fd k := by
  induction layout generalizing fd with
  | nil => simp
  | cons f rest ih =>
    simp only [List.foldl_cons]
    by_cases hid : f.id = k
    · rw [genStep_eq_of_nullish fd f (by rw [hid]; exact h)]
      have hlk : lookupKey (setKey fd f.id (defaultFor f)) k = some (defaultFor f) := by
        simp [lookupKey_setKey, hid]
      rw [genFold_lookup_of_not_nullish rest _ k
        (by rw [hlk]; exact nullish_some_of_ne_null _ (defaultFor_ne_null f)), hlk,
        List.find?_cons_of_pos _ (by simp [hid])]
    · have hpres := genStep_lookup_of_ne fd f k hid
      rw [ih (genStep fd f) (by rw [hpres]; exact h), hpres,
        List.find?_cons_of_neg _ (by simp [hid])]

theorem idKeyFixup_eq (defaultData : Option FormData) (idKey : Option String)
    (fd : FormData) : idKeyFixup defaultData idKey fd = fd := by
  cases idKey with
  | none => rfl
  | some k =>
    cases defaultData with
    | none => rfl
    | some d =>
      simp only [idKeyFixup]
      by_cases hc : (decide (k ≠ "") && truthyOpt (lookupKey fd k)) = true
      · rw [if_pos hc]
        cases hl : lookupKey fd k with
        | none => rfl
        | some v => exact setKey_eq_self_of_lookup fd k v hl
      · rw [if_neg hc]

theorem generateDefaultFormData_eq_fold (layout : FormLayout) (dd : Option FormData)
    (ik : Option String) :
    generateDefaultFormData layout dd ik = layout.foldl genStep (dd.getD []) := by
  rw [generateDefaultFormData, idKeyFixup_eq]

theorem coversB_generateDefaultFormData (layout : FormLayout) (dd : Option FormData)
    (ik : Option String) :
    coversB layout (generateDefaultFormData layout dd ik) = true := by
  rw [generateDefaultFormData_eq_fold]
  rw [coversB, List.all_eq_true]
  intro f hf
  by_cases hn : nullish (lookupKey (dd.getD []) f.id) = false
  · rw [genFold_lookup_of_not_nullish layout _ f.id hn]
    simp [isSome_of_not_nullish _ hn]
  · have hn2 : nullish (lookupKey (dd.getD []) f.id) = true := by
      revert hn
      cases nullish (lookupKey (dd.getD []) f.id) <;> simp
    rw [genFold_lookup_of_nullish layout _ f.id hn2]
    cases hfind : layout.find? (fun g => decide (g.id = f.id)) with
    | none =>
      exfalso
      have := List.find?_eq_none.mp hfind f hf
      simp at this
    | some g => simp

theorem coversB_setKey (layout : FormLayout) (fd : FormData) (k : String) (v : Value)
    (h : coversB layout fd = true) : coversB layout (setKey fd k v) = true := by
  rw [coversB, List.all_eq_true] at h ⊢
  intro f hf
  have hsome := h f hf
  rw [lookupKey_setKey]
  split <;> simp_all

theorem checkData_foldl_lookup (data : FormData) (layout : FormLayout)
    (errors : FormErrors) (k : String) :
    lookupKey
        (layout.foldl
          (fun errors f =>
            if fieldTrigger data f then setKey errors f.id ("Field is required")
            else errors)
          errors) k =
      if layout.any (fun f => decide (f.id = k) && fieldTrigger data f) then
        some ("Field is required")
      else lookupKey errors k := by
  induction layout generalizing errors with
  | nil => simp
  | cons f rest ih =>
    simp only [List.foldl_cons, List.any_cons]
    by_cases htr : fieldTrigger data f = true
    · simp only [if_pos htr]
      rw [ih (setKey errors f.id ("Field is required"))]
      by_cases hid : f.id = k
      · subst hid
        by_cases hrest : rest.any (fun f => decide (f.id = f.id) && fieldTrigger data f) <;>
          simp [hrest, htr, lookupKey_setKey]
      · by_cases hrest : rest.any (fun f => decide (f.id = k) && fieldTrigger data f) <;>
          simp [hrest, htr, hid, lookupKey_setKey]
    · have htr2 : fieldTrigger data f = false := by
        revert htr
        cases fieldTrigger data f <;> simp
      simp only [if_neg htr]
      rw [ih errors]
      simp [htr2]

theorem checkData_lookup (data : FormData) (layout : FormLayout) (k : String) :
    lookupKey (checkData data layout) k =
      if layout.any (fun f => decide (f.id = k) && fieldTrigger data f) then
        some ("Field is required")
      else none := by
  rw [checkData, checkData_foldl_lookup]
  rfl

theorem checkData_eq_nil_of_no_trigger (data : FormData) (layout : FormLayout)
    (h : ∀ f ∈ layout, fieldTrigger data f = false) : checkData data layout = [] := by
  rw [checkData]
  have haux : ∀ (l : FormLayout) (errors : FormErrors), (∀ f ∈ l, fieldTrigger data f = false) →
      l.foldl
        (fun errors f =>
          if fieldTrigger data f then setKey errors f.id ("Field is required")
          else errors)
        errors = errors := by
    intro l
    induction l with
    | nil => intro errors _; rfl
    | cons f rest ih =>
      intro errors hl
      rw [List.foldl_cons, if_neg (by simp [hl f (List.mem_cons_self f rest)])]
      exact ih errors fun g hg => hl g (List.mem_cons_of_mem f hg)
  exact haux layout [] h

theorem checkData_ne_nil_of_trigger (data : FormData) (layout : FormLayout)
    (f : FieldDescriptor) (hf : f ∈ layout) (htr : fieldTrigger data f = true) :
    checkData data layout ≠ [] := by
  have hlk : lookupKey (checkData data layout) f.id = some ("Field is required") := by
    rw [checkData_lookup]
    rw [if_pos]
    rw [List.any_eq_true]
    exact ⟨f, hf, by simp [htr]⟩
  exact ne_nil_of_lookupKey _ _ _ hlk

theorem parseNumbers_foldl_lookup (data : FormData) (layout : FormLayout)
    (pd : FormData) (k : String) :
    lookupKey
        (layout.foldl
          (fun parsedData f =>
            if f.inputType = InputType.NUMBER then
              setKey parsedData f.id (Value.num (jsNumberOf (lookupKey data f.id)))
            else parsedData)
          pd) k =
      if layout.any (fun f => decide (f.id = k) && decide (f.inputType = InputType.NUMBER))
      then some (Value.num (jsNumberOf (lookupKey data k)))
      else lookupKey pd k := by
  induction layout generalizing pd with
  | nil => simp
  | cons f rest ih =>
    simp only [List.foldl_cons, List.any_cons]
    by_cases hty : f.inputType = InputType.NUMBER
    · simp only [if_pos hty]
      rw [ih (setKey pd f.id (Value.num (jsNumberOf (lookupKey data f.id))))]
      by_cases hid : f.id = k
      · subst hid
        by_cases hrest :
            rest.any (fun f₂ => decide (f₂.id = f.id) && decide (f₂.inputType = InputType.NUMBER)) <;>
          simp [hrest, hty, lookupKey_setKey]
      · by_cases hrest :
            rest.any (fun f₂ => decide (f₂.id = k) && decide (f₂.inputType = InputType.NUMBER)) <;>
          simp [hrest, hty, hid, lookupKey_setKey]
    · simp only [if_neg hty]
      rw [ih pd]
      simp [hty]

theorem parseNumbers_lookup (data : FormData) (layout : FormLayout) (k : String) :
    lookupKey (parseNumbers data layout) k =
      if layout.any (fun f => decide (f.id = k) && decide (f.inputType = InputType.NUMBER))
      then some (Value.num (jsNumberOf (lookupKey data k)))
      else lookupKey data k := by
  rw [parseNumbers, parseNumbers_foldl_lookup]

theorem find_of_nodup (layout : FormLayout) (f : FieldDescriptor) (hf : f ∈ layout)
    (hnodup : (layout.map FieldDescriptor.id).Nodup) :
    layout.find? (fun g => decide (g.id = f.id)) = some f := by
  induction layout with
  | nil => cases hf
  | cons g rest ih =>
    have hnd : g.id ∉ rest.map FieldDescriptor.id ∧ (rest.map FieldDescriptor.id).Nodup := by
      rw [List.map_cons, List.nodup_cons] at hnodup
      exact hnodup
    rcases List.mem_cons.mp hf with hfg | hfr
    · subst hfg
      exact List.find?_cons_of_pos _ (by simp)
    · have hne : g.id ≠ f.id := by
        intro hh
        apply hnd.1
        rw [hh]
        exact List.mem_map_of_mem FieldDescriptor.id hfr
      rw [List.find?_cons_of_neg _ (by simp [hne]), ih hfr hnd.2]

/-- Claim C1: the validator is claimed to record the error exactly for
required fields whose value is the empty string or null, and never for a
field not marked required.  The code evaluates differently: because the
null comparison sits outside the conjunction with the required flag, a
field that is not required but holds null is assigned the error. -/
theorem claim_C1_checkData_flags_nonrequired_null :
    (⟨("x"), InputType.STRING, false, none⟩ : FieldDescriptor).required = false ∧
    checkData [(("x"), Value.null)] [⟨("x"), InputType.STRING, false, none⟩] =
      [(("x"), ("Field is required"))] :=
  ⟨rfl, rfl⟩

/-- Claim C2: submit with every required field populated is claimed to
invoke the callback once with coerced data and yield empty errors.  On a
layout whose only field is not required, so that all (zero) required
fields are populated, a null value still produces an error and blocks the
callback. -/
theorem claim_C2_submit_blocked_by_nonrequired_null :
    ([⟨("x"), InputType.STRING, false, none⟩] : FormLayout).all (fun f => !f.required) = true ∧
    (submit ⟨[(("x"), Value.null)], []⟩ [⟨("x"), InputType.STRING, false, none⟩]).2 = [] ∧
    (submit ⟨[(("x"), Value.null)], []⟩ [⟨("x"), InputType.STRING, false, none⟩]).1.formErrors =
      [(("x"), ("Field is required"))] :=
  ⟨rfl, rfl, rfl⟩

/-- Claim C3: for every layout and form data containing a required field
whose value is the empty string, submit records an error for that field
and does not invoke the callback; in general a submission either fully
succeeds (errors empty, callback invoked once) or fully fails (errors
populated, callback not invoked). -/
theorem claim_C3_submit_required_empty (state : FormControlState) (layout : FormLayout)
    (f : FieldDescriptor) (hf : f ∈ layout) (hreq : f.required = true)
    (hval : lookupKey state.formData f.id = some (Value.str "")) :
    lookupKey (submit state layout).1.formErrors f.id = some ("Field is required") ∧
    (submit state layout).2 = [] ∧
    ∀ (s : FormControlState) (l : FormLayout),
      ((submit s l).1.formErrors = [] ∧ (submit s l).2 = [parseNumbers s.formData l]) ∨
      ((submit s l).1.formErrors ≠ [] ∧ (submit s l).2 = []) := by
  have htr : fieldTrigger state.formData f = true := by
    simp [fieldTrigger, hreq, hval]
  have herr : lookupKey (checkData state.formData layout) f.id = some ("Field is required") := by
    rw [checkData_lookup, if_pos]
    rw [List.any_eq_true]
    exact ⟨f, hf, by simp [htr]⟩
  have hne : checkData state.formData layout ≠ [] :=
    checkData_ne_nil_of_trigger _ _ f hf htr
  refine ⟨herr, ?_, ?_⟩
  · show (if (checkData state.formData layout).length = 0 then
        [parseNumbers state.formData layout] else []) = []
    rw [if_neg]
    intro hlen
    exact hne (List.length_eq_zero.mp hlen)
  · intro s l
    by_cases h : (checkData s.formData l).length = 0
    · refine Or.inl ⟨List.length_eq_zero.mp h, ?_⟩
      show (if (checkData s.formData l).length = 0 then
          [parseNumbers s.formData l] else []) = [parseNumbers s.formData l]
      rw [if_pos h]
    · refine Or.inr ⟨?_, ?_⟩
      · show checkData s.formData l ≠ []
        intro hh
        exact h (by rw [hh]; rfl)
      · show (if (checkData s.formData l).length = 0 then
            [parseNumbers s.formData l] else []) = []
        rw [if_neg h]

/-- Witness for claim C3 at a concrete input. -/
theorem claim_C3_witness :
    lookupKey
        (submit ⟨[(("a"), Value.str "")], []⟩
          [⟨("a"), InputType.STRING, true, none⟩]).1.formErrors ("a") =
      some ("Field is required") ∧
    (submit ⟨[(("a"), Value.str "")], []⟩ [⟨("a"), InputType.STRING, true, none⟩]).2 = [] := by
  have h := claim_C3_submit_required_empty ⟨[(("a"), Value.str "")], []⟩
    [⟨("a"), InputType.STRING, true, none⟩] ⟨("a"), InputType.STRING, true, none⟩
    (List.mem_singleton.mpr rfl) rfl (by decide)
  exact ⟨h.1, h.2.1⟩

/-- Claim C4: the default data generator covers every field id of the
layout; a field absent from the supplied data gets its declared default,
or false for BOOLEAN fields and the empty string otherwise, and a field
already present keeps its supplied value.  Stated for null-free supplied
data and non-null declared defaults, the value domain the spec gives for
Form Data. -/
theorem claim_C4_generateDefaultFormData (layout : FormLayout) (dd : Option FormData)
    (hnodup : (layout.map FieldDescriptor.id).Nodup)
    (hdata : ∀ p ∈ dd.getD [], p.2 ≠ Value.null)
    (hdv : ∀ f ∈ layout, f.defaultValue ≠ some Value.null) :
    (∀ f ∈ layout,
      (lookupKey (generateDefaultFormData layout dd none) f.id).isSome = true) ∧
    (∀ f ∈ layout, lookupKey (dd.getD []) f.id = none →
      lookupKey (generateDefaultFormData layout dd none) f.id =
        some (f.defaultValue.getD (emptyValue f.inputType))) ∧
    (∀ (k : String) (v : Value), lookupKey (dd.getD []) k = some v →
      lookupKey (generateDefaultFormData layout dd none) k = some v) := by
  refine ⟨?_, ?_, ?_⟩
  · intro f hf
    have h := coversB_generateDefaultFormData layout dd none
    rw [coversB, List.all_eq_true] at h
    simpa using h f hf
  · intro f hf hnone
    rw [generateDefaultFormData_eq_fold,
      genFold_lookup_of_nullish layout _ f.id (by rw [hnone]; rfl),
      find_of_nodup layout f hf hnodup]
    show some (defaultFor f) = _
    rw [defaultFor_eq_getD f (hdv f hf)]
  · intro k v hv
    have hvn : v ≠ Value.null := hdata (k, v) (lookupKey_mem _ _ _ hv)
    rw [generateDefaultFormData_eq_fold,
      genFold_lookup_of_not_nullish layout _ k
        (by rw [hv]; exact nullish_some_of_ne_null v hvn)]
    exact hv

/-- Witness for claim C4 at a concrete input. -/
theorem claim_C4_witness :
    lookupKey
        (generateDefaultFormData
          [⟨("a"), InputType.STRING, true, none⟩, ⟨("b"), InputType.BOOLEAN, false, none⟩]
          (some [(("a"), Value.str "x")]) none) ("b") = some (Value.bool false) ∧
    lookupKey
        (generateDefaultFormData
          [⟨("a"), InputType.STRING, true, none⟩, ⟨("b"), InputType.BOOLEAN, false, none⟩]
          (some [(("a"), Value.str "x")]) none) ("a") = some (Value.str "x") := by
  have h := claim_C4_generateDefaultFormData
    [⟨("a"), InputType.STRING, true, none⟩, ⟨("b"), InputType.BOOLEAN, false, none⟩]
    (some [(("a"), Value.str "x")]) (by decide) (by decide) (by decide)
  exact ⟨h.2.1 ⟨("b"), InputType.BOOLEAN, false, none⟩ (by decide) (by decide),
    h.2.2 ("a") (Value.str "x") (by decide)⟩

/-- Claim C5: after hook initialization and after every reducer action
dispatched by the hook, every field id of the hook's layout has an entry
in the form data. -/
theorem claim_C5_layout_coverage (layout : FormLayout) (dd : Option FormData)
    (ik : Option String) :
    coversB layout (initState layout dd ik).formData = true ∧
    ∀ (s : FormControlState) (a : HookAction),
      coversB layout s.formData = true →
      coversB layout (hookDispatch layout s a).1.formData = true := by
  constructor
  · exact coversB_generateDefaultFormData layout dd ik
  · intro s a hcov
    cases a with
    | reset => exact coversB_generateDefaultFormData layout none none
    | submit => exact hcov
    | changeField k v => exact coversB_setKey layout s.formData k v hcov

/-- Witness for claim C5 at a concrete input. -/
theorem claim_C5_witness :
    coversB [⟨("a"), InputType.STRING, true, none⟩]
        (initState [⟨("a"), InputType.STRING, true, none⟩] none none).formData = true ∧
    coversB [⟨("a"), InputType.STRING, true, none⟩]
        (hookDispatch [⟨("a"), InputType.STRING, true, none⟩]
          ⟨[(("a"), Value.str "x")], []⟩ HookAction.submit).1.formData = true := by
  have h := claim_C5_layout_coverage [⟨("a"), InputType.STRING, true, none⟩] none none
  exact ⟨h.1, h.2 ⟨[(("a"), Value.str "x")], []⟩ HookAction.submit (by decide)⟩

/-- Claim C6: changeField is idempotent when reapplied with the same key
and value, changes no other form data entry and leaves the error mapping
untouched. -/
theorem claim_C6_changeField (s : FormControlState) (k : String) (v : Value) :
    changeField (changeField s k v) k v = changeField s k v ∧
    (∀ k₂, k₂ ≠ k → lookupKey (changeField s k v).formData k₂ = lookupKey s.formData k₂) ∧
    (changeField s k v).formErrors = s.formErrors := by
  refine ⟨?_, ?_, rfl⟩
  · simp [changeField, setKey_setKey_self]
  · intro k₂ h
    show lookupKey (setKey s.formData k v) k₂ = _
    rw [lookupKey_setKey, if_neg (fun hh => h hh.symm)]

/-- Witness for claim C6 at a concrete input. -/
theorem claim_C6_witness :
    changeField
        (changeField ⟨[(("a"), Value.str "1"), (("b"), Value.str "2")], [(("e"), ("m"))]⟩
          ("a") (Value.str "9")) ("a") (Value.str "9") =
      changeField ⟨[(("a"), Value.str "1"), (("b"), Value.str "2")], [(("e"), ("m"))]⟩
        ("a") (Value.str "9") ∧
    lookupKey
        (changeField ⟨[(("a"), Value.str "1"), (("b"), Value.str "2")], [(("e"), ("m"))]⟩
          ("a") (Value.str "9")).formData ("b") =
      lookupKey
        ((⟨[(("a"), Value.str "1"), (("b"), Value.str "2")], [(("e"), ("m"))]⟩ :
          FormControlState)).formData ("b") ∧
    (changeField ⟨[(("a"), Value.str "1"), (("b"), Value.str "2")], [(("e"), ("m"))]⟩
        ("a") (Value.str "9")).formErrors =
      ((⟨[(("a"), Value.str "1"), (("b"), Value.str "2")], [(("e"), ("m"))]⟩ :
          FormControlState)).formErrors := by
  have h := claim_C6_changeField
    ⟨[(("a"), Value.str "1"), (("b"), Value.str "2")], [(("e"), ("m"))]⟩ ("a") (Value.str "9")
  exact ⟨h.1, h.2.1 ("b") (by decide), h.2.2⟩

/-- Claim C7: on a submit that succeeds, the form data stored in the
returned state equals the input form data (coercion does not touch the
live state), the callback receives exactly the number-parsed data, and
every key not declared NUMBER in the layout reaches the callback
unchanged. -/
theorem claim_C7_submit_frame (state : FormControlState) (layout : FormLayout)
    (hsucc : (submit state layout).2 ≠ []) :
    (submit state layout).1.formData = state.formData ∧
    (submit state layout).2 = [parseNumbers state.formData layout] ∧
    ∀ k : String, (∀ f ∈ layout, f.id = k → f.inputType ≠ InputType.NUMBER) →
      lookupKey (parseNumbers state.formData layout) k = lookupKey state.formData k := by
  refine ⟨rfl, ?_, ?_⟩
  · by_cases h : (checkData state.formData layout).length = 0
    · show (if (checkData state.formData layout).length = 0 then
          [parseNumbers state.formData layout] else []) = _
      rw [if_pos h]
    · exfalso
      apply hsucc
      show (if (checkData state.formData layout).length = 0 then
          [parseNumbers state.formData layout] else []) = []
      rw [if_neg h]
  · intro k hk
    have hany :
        layout.any (fun f₂ => decide (f₂.id = k) && decide (f₂.inputType = InputType.NUMBER)) =
          false := by
      by_cases hb :
          layout.any (fun f₂ => decide (f₂.id = k) && decide (f₂.inputType = InputType.NUMBER)) =
            true
      · exfalso
        rcases List.any_eq_true.mp hb with ⟨f, hf, hc⟩
        simp only [Bool.and_eq_true, decide_eq_true_eq] at hc
        exact hk f hf hc.1 hc.2
      · revert hb
        cases layout.any
            (fun f₂ => decide (f₂.id = k) && decide (f₂.inputType = InputType.NUMBER)) <;> simp
    rw [parseNumbers_lookup]
    simp [hany]

/-- Witness for claim C7 at a concrete input. -/
theorem claim_C7_witness :
    (submit ⟨[(("n"), Value.str "5"), (("s"), Value.str "t")], []⟩
        [⟨("n"), InputType.NUMBER, false, none⟩,
          ⟨("s"), InputType.STRING, false, none⟩]).1.formData =
      [(("n"), Value.str "5"), (("s"), Value.str "t")] ∧
    (submit ⟨[(("n"), Value.str "5"), (("s"), Value.str "t")], []⟩
        [⟨("n"), InputType.NUMBER, false, none⟩,
          ⟨("s"), InputType.STRING, false, none⟩]).2 =
      [parseNumbers [(("n"), Value.str "5"), (("s"), Value.str "t")]
        [⟨("n"), InputType.NUMBER, false, none⟩, ⟨("s"), InputType.STRING, false, none⟩]] ∧
    lookupKey
        (parseNumbers [(("n"), Value.str "5"), (("s"), Value.str "t")]
          [⟨("n"), InputType.NUMBER, false, none⟩,
            ⟨("s"), InputType.STRING, false, none⟩]) ("s") =
      lookupKey ([(("n"), Value.str "5"), (("s"), Value.str "t")] : FormData) ("s") := by
  have h := claim_C7_submit_frame
    ⟨[(("n"), Value.str "5"), (("s"), Value.str "t")], []⟩
    [⟨("n"), InputType.NUMBER, false, none⟩, ⟨("s"), InputType.STRING, false, none⟩]
    (by decide)
  exact ⟨h.1, h.2.1, h.2.2 ("s") (by decide)⟩

/-- Claim C8: reset yields empty errors and form data equal to fresh
defaults generated from the layout with no pre-existing data. -/
theorem claim_C8_reset (state : FormControlState) (layout : FormLayout) :
    (reset state layout).formErrors = [] ∧
    (reset state layout).formData = generateDefaultFormData layout none none :=
  ⟨rfl, rfl⟩

/-- Claim C10: on a successful submit, a NUMBER-typed field whose stored
value is the empty string is passed to the callback as the number 0,
because the coercion applies the Number() conversion to the stored
string. -/
theorem claim_C10_number_empty_zero (state : FormControlState) (layout : FormLayout)
    (f : FieldDescriptor) (hf : f ∈ layout) (hty : f.inputType = InputType.NUMBER)
    (hval : lookupKey state.formData f.id = some (Value.str ""))
    (hsucc : (submit state layout).2 ≠ []) :
    (submit state layout).2 = [parseNumbers state.formData layout] ∧
    lookupKey (parseNumbers state.formData layout) f.id =
      some (Value.num (JSNumber.val 0)) := by
  constructor
  · by_cases h : (checkData state.formData layout).length = 0
    · show (if (checkData state.formData layout).length = 0 then
          [parseNumbers state.formData layout] else []) = _
      rw [if_pos h]
    · exfalso
      apply hsucc
      show (if (checkData state.formData layout).length = 0 then
          [parseNumbers state.formData layout] else []) = []
      rw [if_neg h]
  · have hany :
        layout.any (fun f₂ => decide (f₂.id = f.id) && decide (f₂.inputType = InputType.NUMBER)) =
          true := by
      rw [List.any_eq_true]
      exact ⟨f, hf, by simp [hty]⟩
    have h := parseNumbers_lookup state.formData layout f.id
    rw [hany] at h
    simp only [if_true] at h
    rw [hval] at h
    exact h

/-- Witness for claim C10 at a concrete input. -/
theorem claim_C10_witness :
    (submit ⟨[(("n"), Value.str "")], []⟩ [⟨("n"), InputType.NUMBER, false, none⟩]).2 =
      [parseNumbers [(("n"), Value.str "")] [⟨("n"), InputType.NUMBER, false, none⟩]] ∧
    lookupKey
        (parseNumbers [(("n"), Value.str "")] [⟨("n"), InputType.NUMBER, false, none⟩])
        ("n") = some (Value.num (JSNumber.val 0)) :=
  claim_C10_number_empty_zero ⟨[(("n"), Value.str "")], []⟩
    [⟨("n"), InputType.NUMBER, false, none⟩] ⟨("n"), InputType.NUMBER, false, none⟩
    (List.mem_singleton.mpr rfl) rfl (by decide) (by decide)

end ApiForm
